import Mathlib

/-!
Verification development for the XIndex front-end (`xindex_impl.h` together
with `byte_size.hpp`).  The facade code — constructor, destructor,
`get`/`put`/`remove`/`scan`/`range_scan`, the background coordinator round and
`force_adjustment_sync` — is embedded shallowly below.  The Root/Group/Buffer
implementations live in headers that are not part of the examined sources, so
they appear here either as abstract operation records (for the lifecycle and
ordering properties, which depend only on the facade) or as a model written
from the specification (for the key-value semantics).
-/

namespace XIndexModel

/-- Result codes of the implementation (`result_t`).  The facade compares
results against `result_t::ok` and `result_t::retry`; `failed` stands for the
remaining code (key not found / hard failure). -/
inductive result_t where
  | ok
  | failed
  | retry
deriving DecidableEq

/-- The observable actions the facade performs during an adjustment round:
evaluating the Groups' adjustment need, calling `create_new_root()`, storing
the new pointer into `index.root` (publication), `memory_fence()`,
`rcu_barrier()`, `trim_root()`, and `delete old_root`. -/
inductive AdjEvent where
  | evalGroups
  | createNewRoot
  | publishRoot
  | memoryFence
  | rcuBarrier
  | trimRoot
  | freeOldRoot
deriving DecidableEq

/-- The `root_t` member functions the facade's lifecycle paths call.  Their
implementations are not among the examined sources, so they are abstract
state transformers here; `sizeofRoot` stands for `sizeof(root_t)`.
`forceAdjEval` abstracts the Group-adjustment evaluation (the workers'
`root_t::do_adjustment` round resp. `root_t::force_adjustment_sync`), whose
outcome is the `should_update_array` flag. -/
structure RootModel (ρ : Type) where
  createNewRoot : ρ → ρ
  trimRoot : ρ → ρ
  forceAdjEval : ρ → Bool
  sizeofRoot : Nat

/-- The facade state the lifecycle paths touch: the owned `root` pointer
(`none` = `nullptr`) and the process-wide `_::allocated_bytes` counter. -/
structure XState (ρ : Type) where
  root : Option ρ
  allocatedBytes : Nat
deriving DecidableEq

/-- Lines 191–201 of `xindex_impl.h`: the coordinator's structural-change
block, entered with the collected `should_update_array` flag.  Returns the new
root, the new `_::allocated_bytes` value and the list of actions in program
order. -/
def backgroundStructuralUpdate {ρ : Type} (M : RootModel ρ) (shouldUpdateArray : Bool)
    (root : ρ) (alloc : Nat) : ρ × Nat × List AdjEvent :=
  if shouldUpdateArray then
    let oldRoot := root
    let published := M.createNewRoot oldRoot
    let ev1 := [AdjEvent.createNewRoot, AdjEvent.publishRoot]
    let ev2 := ev1 ++ [AdjEvent.memoryFence]
    let ev3 := ev2 ++ [AdjEvent.rcuBarrier]
    let trimmed := M.trimRoot published
    let ev4 := ev3 ++ [AdjEvent.trimRoot]
    let alloc2 := alloc - M.sizeofRoot
    let ev5 := ev4 ++ [AdjEvent.freeOldRoot]
    (trimmed, alloc2, ev5)
  else
    (root, alloc, [])

/-- One round of the coordinator loop in `XIndex::background` (lines
157–220): the workers' Group evaluation (collapsed into one `evalGroups`
action producing `should_update_array`), the structural-change block, and the
round-closing `memory_fence(); rcu_barrier()` of lines 218–219. -/
def backgroundRound {ρ : Type} (M : RootModel ρ) (root : ρ) (alloc : Nat) :
    ρ × Nat × List AdjEvent :=
  let shouldUpdateArray := M.forceAdjEval root
  let step := backgroundStructuralUpdate M shouldUpdateArray root alloc
  (step.1, step.2.1,
    AdjEvent.evalGroups :: step.2.2 ++ [AdjEvent.memoryFence, AdjEvent.rcuBarrier])

/-- `XIndex::force_adjustment_sync` (lines 266–298): early return on a null
root; otherwise evaluate the Groups, and on `should_update_array` create the
new root, publish it, trim it and free the old one — with no fence and no RCU
barrier on this path. -/
def force_adjustment_sync {ρ : Type} (M : RootModel ρ) (s : XState ρ) :
    XState ρ × List AdjEvent :=
  match s.root with
  | none => (s, [])
  | some root =>
    let shouldUpdateArray := M.forceAdjEval root
    let ev0 := [AdjEvent.evalGroups]
    if shouldUpdateArray then
      let oldRoot := root
      let published := M.createNewRoot oldRoot
      let ev1 := ev0 ++ [AdjEvent.createNewRoot, AdjEvent.publishRoot]
      let trimmed := M.trimRoot published
      let ev2 := ev1 ++ [AdjEvent.trimRoot]
      let alloc2 := s.allocatedBytes - M.sizeofRoot
      let ev3 := ev2 ++ [AdjEvent.freeOldRoot]
      ({ root := some trimmed, allocatedBytes := alloc2 }, ev3)
    else
      (s, ev0)

/-- Effect of the constructor on `_::allocated_bytes` (lines 39–60): line 41
unconditionally resets the counter to 0 (the comment above it documents this
as a workaround for leaks), line 60 then adds `sizeof(root_t)` for the root
just allocated. -/
def constructorAllocEffect (allocatedBefore : Nat) (sizeofRoot : Nat) : Nat :=
  let counter := 0
  counter + sizeofRoot

/-- The tunables the constructor's INVARIANT block (lines 45–52) checks.
Their declared types are in a header outside the examined sources; they are
modelled as integers, on which the source's `> 0` comparisons are faithful. -/
structure Config where
  root_error_bound : Int
  root_memory_constraint : Int
  group_error_bound : Int
  group_error_tolerance : Int
  buffer_size_bound : Int
  buffer_size_tolerance : Int
  buffer_compact_threshold : Int
  worker_n : Int
deriving DecidableEq

/-- The conjunction of the eight INVARIANT checks of lines 45–52, in source
order. -/
def configChecksPass (c : Config) : Bool :=
  (c.root_error_bound > 0) && (c.root_memory_constraint > 0) &&
  (c.group_error_bound > 0) && (c.group_error_tolerance > 0) &&
  (c.buffer_size_bound > 0) && (c.buffer_size_tolerance > 0) &&
  (c.buffer_compact_threshold > 0) && (c.worker_n > 0)

/-- `XIndex::XIndex` (lines 35–66) as far as the facade state is concerned:
`none` models the fatal INVARIANT failure (the process refuses to start);
otherwise the root is allocated and the counter updated per
`constructorAllocEffect`. -/
def xindexConstruct {ρ : Type} (M : RootModel ρ) (c : Config) (allocatedBefore : Nat)
    (initRoot : ρ) : Option (XState ρ) :=
  if configChecksPass c then
    some { root := some initRoot,
           allocatedBytes := constructorAllocEffect allocatedBefore M.sizeofRoot }
  else
    none

/-- What `XIndex::~XIndex` (lines 68–88) leaves behind: the counter after the
decrement, whether `assert(_::allocated_bytes > bytes_to_delete)` held, and
the byte count of the `LEAKING … BYTES` diagnostic when it is printed. -/
structure DtorOutcome where
  allocatedAfter : Nat
  assertHolds : Bool
  leakedBytesReported : Option Nat
deriving DecidableEq

/-- `XIndex::~XIndex` (lines 68–88): if the root is non-null, assert the
strict inequality, subtract `sizeof(root_t)` and delete the root; then report
a leak whenever the counter is still nonzero. -/
def xindexDestructor {ρ : Type} (M : RootModel ρ) (s : XState ρ) : DtorOutcome :=
  match s.root with
  | some _ =>
    let bytesToDelete := M.sizeofRoot
    let ok := decide (s.allocatedBytes > bytesToDelete)
    let alloc2 := s.allocatedBytes - bytesToDelete
    { allocatedAfter := alloc2,
      assertHolds := ok,
      leakedBytesReported := if alloc2 > 0 then some alloc2 else none }
  | none =>
    { allocatedAfter := s.allocatedBytes,
      assertHolds := true,
      leakedBytesReported :=
        if s.allocatedBytes > 0 then some s.allocatedBytes else none }

/-- Discriminator for the two synchronization actions (memory fence, RCU
barrier) that the background path performs and the synchronous path skips. -/
def isFenceOrBarrier : AdjEvent → Bool
  | AdjEvent.memoryFence => true
  | AdjEvent.rcuBarrier => true
  | _ => false

/-- A concrete instantiation of the abstract root operations over `Nat`, used
to evaluate the lifecycle paths at explicit inputs. -/
def natRootModel : RootModel Nat :=
  { createNewRoot := fun r => r + 1,
    trimRoot := fun r => r * 2,
    forceAdjEval := fun _ => true,
    sizeofRoot := 64 }

/-- The retry loop of `XIndex::put` (lines 100–105), with the successive
results of `root->put` abstracted as a stream: iteration `i` of the loop
observes `responses i`.  The fuel counts loop iterations; `none` means the
loop is still spinning after that many iterations. -/
def putSpin : (Nat → result_t) → Nat → Option result_t
  | _, 0 => none
  | responses, fuel + 1 =>
    if responses 0 = result_t.retry then
      putSpin (fun i => responses (i + 1)) fuel
    else
      some (responses 0)

/-- Per-worker epoch bump performed by `rcu_progress(worker_id)` at the top
of every facade operation. -/
def rcu_progress (epochs : Nat → Nat) (workerId : Nat) : Nat → Nat :=
  fun i => if i = workerId then epochs i + 1 else epochs i

/-- The state a facade operation touches: the live root and the per-worker
RCU epoch counters. -/
structure FacadeState (ρ : Type) where
  root : ρ
  epochs : Nat → Nat

/-- Signatures of the `root_t` operations the facade's data path calls, as
the call sites in lines 91–129 fix them: only `root->put` receives the
worker id; `get` writes its out-parameter, modelled as an `Option` result. -/
structure RootOps (ρ K V : Type) where
  get : ρ → K → result_t × Option V
  put : ρ → K → V → Nat → result_t × ρ
  remove : ρ → K → result_t × ρ
  scan : ρ → K → Nat → List (K × V)
  rangeScan : ρ → K → K → List (K × V)

/-- `XIndex::get` (lines 91–95): `rcu_progress(worker_id)` then
`root->get(key, val) == result_t::ok`. -/
def XIndex.get {ρ K V : Type} (R : RootOps ρ K V) (s : FacadeState ρ) (key : K)
    (workerId : Nat) : FacadeState ρ × Bool × Option V :=
  let s2 : FacadeState ρ := { s with epochs := rcu_progress s.epochs workerId }
  let r := R.get s2.root key
  (s2, r.1 == result_t.ok, r.2)

/-- `XIndex::put` (lines 97–106): `rcu_progress` before each call of
`root->put(key, val, worker_id)`, looping while the result is `retry`, then
returning `res == result_t::ok`.  Fuel bounds the modelled iterations. -/
def XIndex.put {ρ K V : Type} (R : RootOps ρ K V) (key : K) (v : V) (workerId : Nat) :
    Nat → FacadeState ρ → Option (FacadeState ρ × Bool)
  | 0, _ => none
  | fuel + 1, s =>
    let s2 : FacadeState ρ := { s with epochs := rcu_progress s.epochs workerId }
    let r := R.put s2.root key v workerId
    if r.1 = result_t.retry then
      XIndex.put R key v workerId fuel { s2 with root := r.2 }
    else
      some ({ s2 with root := r.2 }, r.1 == result_t.ok)

/-- `XIndex::remove` (lines 108–113): `rcu_progress(worker_id)` then
`root->remove(key) == result_t::ok`. -/
def XIndex.remove {ρ K V : Type} (R : RootOps ρ K V) (s : FacadeState ρ) (key : K)
    (workerId : Nat) : FacadeState ρ × Bool :=
  let s2 : FacadeState ρ := { s with epochs := rcu_progress s.epochs workerId }
  let r := R.remove s2.root key
  ({ s2 with root := r.2 }, r.1 == result_t.ok)

/-- `XIndex::scan` (lines 115–121): `rcu_progress(worker_id)` then
`root->scan(begin, n, result)`; the returned count is the size of the filled
result vector. -/
def XIndex.scan {ρ K V : Type} (R : RootOps ρ K V) (s : FacadeState ρ) (beginKey : K)
    (n : Nat) (workerId : Nat) : FacadeState ρ × Nat × List (K × V) :=
  let s2 : FacadeState ρ := { s with epochs := rcu_progress s.epochs workerId }
  let res := R.scan s2.root beginKey n
  (s2, res.length, res)

/-- `XIndex::range_scan` (lines 123–129): `rcu_progress(worker_id)` then
`root->range_scan(begin, end, result)`. -/
def XIndex.range_scan {ρ K V : Type} (R : RootOps ρ K V) (s : FacadeState ρ)
    (beginKey endKey : K) (workerId : Nat) : FacadeState ρ × Nat × List (K × V) :=
  let s2 : FacadeState ρ := { s with epochs := rcu_progress s.epochs workerId }
  let res := R.rangeScan s2.root beginKey endKey
  (s2, res.length, res)

/-- Modelled from the spec: the Root/Group/Buffer implementation headers are
not among the examined sources.  Per §3/§4.3 of the specification a Group
holds a sorted array of (key, value) pairs plus a write buffer whose entries
are insertion-ordered, take precedence over the array, and use `none` as a
tombstone.  One Group suffices for the observable key-value semantics, since
the Root's routing is read-transparent. -/
structure GroupModel where
  array : List (Nat × Nat)
  buffer : List (Nat × Option Nat)
deriving DecidableEq

/-- Most recent buffer entry for a key (later entries win: last-write-wins by
insertion order, per §4.3). -/
def bufferFind (buf : List (Nat × Option Nat)) (k : Nat) : Option (Option Nat) :=
  buf.foldl (fun acc e => if e.1 = k then some e.2 else acc) none

/-- Lookup in the Group's sorted array. -/
def arrayFind (arr : List (Nat × Nat)) (k : Nat) : Option Nat :=
  (arr.find? (fun e => e.1 == k)).map (fun e => e.2)

/-- Modelled from the spec: Group `get` — buffer entries (including
tombstones) take precedence over the array; otherwise the array answers. -/
def Group.lookup (g : GroupModel) (k : Nat) : Option Nat :=
  match bufferFind g.buffer k with
  | some latest => latest
  | none => arrayFind g.array k

/-- Sorted insertion of a key, skipping duplicates. -/
def insertKey (k : Nat) : List Nat → List Nat
  | [] => [k]
  | x :: xs =>
    if k = x then x :: xs
    else if k < x then k :: x :: xs
    else x :: insertKey k xs

/-- All keys known to the Group, in ascending order without duplicates. -/
def sortedKeys (g : GroupModel) : List Nat :=
  (g.array.map Prod.fst ++ g.buffer.map Prod.fst).foldr insertKey []

/-- Modelled from the spec: the Group's visible (key, value) pairs in
ascending key order, honoring tombstones. -/
def Group.visible (g : GroupModel) : List (Nat × Nat) :=
  (sortedKeys g).filterMap (fun k => (Group.lookup g k).map (fun v => (k, v)))

/-- Modelled from the spec: `scan(begin, n)` — up to `n` visible pairs with
key ≥ begin, ascending. -/
def Group.scanOp (g : GroupModel) (beginKey n : Nat) : List (Nat × Nat) :=
  ((Group.visible g).filter (fun p => beginKey ≤ p.1)).take n

/-- Modelled from the spec: `range_scan(begin, end)` — the visible pairs with
key in [begin, end), ascending. -/
def Group.rangeScanOp (g : GroupModel) (beginKey endKey : Nat) : List (Nat × Nat) :=
  (Group.visible g).filter (fun p => beginKey ≤ p.1 && p.1 < endKey)

/-- Modelled from the spec: the `root_t` data operations over the single-Group
model.  `put` appends to the buffer (last write wins) and ignores the worker
id, which §6 reserves for epoch tracking; `remove` writes a tombstone when
the key is visible; nothing returns `retry` since no concurrent structural
change exists in this sequential model. -/
def groupRootOps : RootOps GroupModel Nat Nat :=
  { get := fun g k =>
      match Group.lookup g k with
      | some v => (result_t.ok, some v)
      | none => (result_t.failed, none),
    put := fun g k v _ => (result_t.ok, { g with buffer := g.buffer ++ [(k, some v)] }),
    remove := fun g k =>
      if (Group.lookup g k).isSome then
        (result_t.ok, { g with buffer := g.buffer ++ [(k, none)] })
      else
        (result_t.failed, g),
    scan := fun g b n => Group.scanOp g b n,
    rangeScan := fun g b e => Group.rangeScanOp g b e }

/-- Modelled from the spec: `root->init(keys, vals)` bulk-loads the sorted
key/value sequences into the sorted array, with an empty buffer. -/
def Root.init (keys vals : List Nat) : GroupModel :=
  { array := keys.zip vals, buffer := [] }

/-- The concrete scenario's initial facade state: keys {1,3,5,7,9}, values
{10,30,50,70,90}, one worker, no background threads. -/
def scenario0 : FacadeState GroupModel :=
  { root := Root.init [1, 3, 5, 7, 9] [10, 30, 50, 70, 90], epochs := fun _ => 0 }

/-- Scenario step: `get(5)` by worker 0. -/
def scenarioGet5 : FacadeState GroupModel × Bool × Option Nat :=
  XIndex.get groupRootOps scenario0 5 0

/-- Scenario step: `put(4, 40)` by worker 0 (fuel 8 is ample: the sequential
root never reports `retry`). -/
def scenarioPut4 : Option (FacadeState GroupModel × Bool) :=
  XIndex.put groupRootOps 4 40 0 8 scenarioGet5.1

/-- Facade state after `put(4, 40)`. -/
def scenarioAfterPut4 : FacadeState GroupModel :=
  (scenarioPut4.getD (scenarioGet5.1, false)).1

/-- Scenario step: `get(4)`. -/
def scenarioGet4 : FacadeState GroupModel × Bool × Option Nat :=
  XIndex.get groupRootOps scenarioAfterPut4 4 0

/-- Scenario step: `remove(3)`. -/
def scenarioRemove3 : FacadeState GroupModel × Bool :=
  XIndex.remove groupRootOps scenarioGet4.1 3 0

/-- Scenario step: `get(3)` after the removal. -/
def scenarioGet3 : FacadeState GroupModel × Bool × Option Nat :=
  XIndex.get groupRootOps scenarioRemove3.1 3 0

/-- Scenario step: `range_scan(3, 8)`. -/
def scenarioRange : FacadeState GroupModel × Nat × List (Nat × Nat) :=
  XIndex.range_scan groupRootOps scenarioGet3.1 3 8 0

theorem putSpin_const_retry (fuel : Nat) :
    putSpin (fun _ => result_t.retry) fuel = none := by
  induction fuel with
  | zero => rfl
  | succ n ih => simpa [putSpin] using ih

/-- Helper: the eight INVARIANT checks pass exactly when all eight tunables
are strictly positive. -/
theorem configChecksPass_iff (c : Config) :
    configChecksPass c = true ↔
      (0 < c.root_error_bound ∧ 0 < c.root_memory_constraint
        ∧ 0 < c.group_error_bound ∧ 0 < c.group_error_tolerance
        ∧ 0 < c.buffer_size_bound ∧ 0 < c.buffer_size_tolerance
        ∧ 0 < c.buffer_compact_threshold ∧ 0 < c.worker_n) := by
  unfold configChecksPass
  simp [Bool.and_eq_true, decide_eq_true_eq, and_assoc]

/-- C1: constructed on keys {1,3,5,7,9} with values {10,30,50,70,90}, one
worker and no background threads, the sequence `get(5)`; `put(4,40)`;
`get(4)`; `remove(3)`; `get(3)`; `range_scan(3,8)` returns (true, 50), true,
(true, 40), true, false, and exactly [(4,40), (5,50), (7,70)] in order. -/
theorem concrete_scenario_sequence :
    scenarioGet5.2 = (true, some 50)
    ∧ scenarioPut4.map (fun p => p.2) = some true
    ∧ scenarioGet4.2 = (true, some 40)
    ∧ scenarioRemove3.2 = true
    ∧ scenarioGet3.2.1 = false
    ∧ scenarioRange.2 = (3, [(4, 40), (5, 50), (7, 70)]) := by
  decide

/-- C2: in the coordinator's structural-change block, the actions happen in
exactly the order create_new_root, publish, memory fence, RCU barrier,
trim_root, free old root — in particular the old root is freed only after
the barrier. -/
theorem bg_structural_update_order :
    ∀ (ρ : Type) (M : RootModel ρ) (oldRoot : ρ) (alloc : Nat),
      (backgroundStructuralUpdate M true oldRoot alloc).2.2
        = [AdjEvent.createNewRoot, AdjEvent.publishRoot, AdjEvent.memoryFence,
           AdjEvent.rcuBarrier, AdjEvent.trimRoot, AdjEvent.freeOldRoot]
      ∧ ((backgroundStructuralUpdate M true oldRoot alloc).2.2).indexOf AdjEvent.rcuBarrier
          < ((backgroundStructuralUpdate M true oldRoot alloc).2.2).indexOf
              AdjEvent.freeOldRoot := by
  intro ρ M oldRoot alloc
  refine ⟨rfl, ?_⟩
  show ([AdjEvent.createNewRoot, AdjEvent.publishRoot, AdjEvent.memoryFence,
      AdjEvent.rcuBarrier, AdjEvent.trimRoot, AdjEvent.freeOldRoot]).indexOf
        AdjEvent.rcuBarrier
    < ([AdjEvent.createNewRoot, AdjEvent.publishRoot, AdjEvent.memoryFence,
      AdjEvent.rcuBarrier, AdjEvent.trimRoot, AdjEvent.freeOldRoot]).indexOf
        AdjEvent.freeOldRoot
  decide

/-- C3 counterexample: at a concrete root model whose evaluation requests a
structural change, the action sequence of `force_adjustment_sync` differs
from that of one background round — the sync path has no memory fence and no
RCU barrier. -/
theorem sync_vs_bg_trace_cex :
    ¬ ((force_adjustment_sync natRootModel { root := some 5, allocatedBytes := 100 }).2
        = (backgroundRound natRootModel 5 100).2.2) := by
  decide

/-- C3 amended: `force_adjustment_sync` performs the background round's
action sequence with every memory fence and RCU barrier deleted, and reaches
the same root state and the same allocation counter. -/
theorem sync_matches_bg_modulo_fences :
    ∀ (ρ : Type) (M : RootModel ρ) (r : ρ) (alloc : Nat),
      (force_adjustment_sync M { root := some r, allocatedBytes := alloc }).2
        = ((backgroundRound M r alloc).2.2).filter
            (fun ev => ! isFenceOrBarrier ev)
      ∧ (force_adjustment_sync M { root := some r, allocatedBytes := alloc }).1.root
          = some (backgroundRound M r alloc).1
      ∧ (force_adjustment_sync M { root := some r, allocatedBytes := alloc }).1.allocatedBytes
          = (backgroundRound M r alloc).2.1 := by
  intro ρ M r alloc
  cases h : M.forceAdjEval r <;>
    refine ⟨?_, ?_, ?_⟩ <;>
      simp [force_adjustment_sync, backgroundRound, backgroundStructuralUpdate, h,
        isFenceOrBarrier, List.filter]

/-- C4: the retry loop of `XIndex::put` never lets `result_t::retry` escape:
whatever the stream of `root->put` results and however many iterations run,
the loop's outcome is never `retry` — when it returns, the result is `ok` or
`failed`, which the facade collapses to a boolean. -/
theorem put_never_returns_retry :
    ∀ (responses : Nat → result_t) (fuel : Nat),
      putSpin responses fuel ≠ some result_t.retry
      ∧ ∀ res, putSpin responses fuel = some res →
          (res = result_t.ok ∨ res = result_t.failed) := by
  intro responses fuel
  induction fuel generalizing responses with
  | zero => exact ⟨by simp [putSpin], by simp [putSpin]⟩
  | succ n ih =>
    by_cases h0 : responses 0 = result_t.retry
    · refine ⟨?_, ?_⟩
      · simpa [putSpin, h0] using (ih (fun i => responses (i + 1))).1
      · intro res hres
        exact (ih (fun i => responses (i + 1))).2 res (by simpa [putSpin, h0] using hres)
    · refine ⟨?_, ?_⟩
      · simp [putSpin, h0]
      · intro res hres
        have hres2 : res = responses 0 := by
          have := hres
          simp [putSpin, h0] at this
          exact this.symm
        subst hres2
        cases hr : responses 0 with
        | ok => exact Or.inl rfl
        | failed => exact Or.inr rfl
        | retry => exact absurd hr h0

/-- C5 counterexample: the retry loop is not bounded by the code — if the
root reports `retry` at every iteration, the loop never returns, at no
iteration count whatsoever. -/
theorem put_spin_unbounded_cex :
    ¬ ∃ fuel res, putSpin (fun _ => result_t.retry) fuel = some res := by
  rintro ⟨fuel, res, h⟩
  rw [putSpin_const_retry] at h
  exact Option.noConfusion h

/-- C5 amended: the loop terminates as soon as the root stops reporting
`retry` — if iteration N would observe a non-retry result, then within N + 1
iterations `put` returns, and never with `retry`. -/
theorem put_spin_terminates_on_nonretry :
    ∀ (N : Nat) (responses : Nat → result_t),
      responses N ≠ result_t.retry →
      ∃ res, putSpin responses (N + 1) = some res ∧ res ≠ result_t.retry := by
  intro N
  induction N with
  | zero =>
    intro responses h
    exact ⟨responses 0, by simp [putSpin, h], h⟩
  | succ n ih =>
    intro responses h
    by_cases h0 : responses 0 = result_t.retry
    · have step := ih (fun i => responses (i + 1)) h
      simpa [putSpin, h0] using step
    · exact ⟨responses 0, by simp [putSpin, h0], h0⟩

/-- C5 witness: with a root that answers `ok` immediately, the loop returns
within one iteration. -/
theorem put_spin_terminates_witness :
    ∃ res, putSpin (fun _ => result_t.ok) (0 + 1) = some res ∧ res ≠ result_t.retry :=
  put_spin_terminates_on_nonretry 0 (fun _ => result_t.ok) (by decide)

/-- C6: construction succeeds exactly when all eight tunables — root error
bound, root memory constraint, group error bound, group error tolerance,
buffer size bound, buffer size tolerance, buffer compact threshold, worker
count — are strictly positive; any non-positive one is fatal. -/
theorem construct_checks_all_positive :
    ∀ (ρ : Type) (M : RootModel ρ) (c : Config) (allocatedBefore : Nat) (r : ρ),
      (xindexConstruct M c allocatedBefore r).isSome ↔
        (0 < c.root_error_bound ∧ 0 < c.root_memory_constraint
          ∧ 0 < c.group_error_bound ∧ 0 < c.group_error_tolerance
          ∧ 0 < c.buffer_size_bound ∧ 0 < c.buffer_size_tolerance
          ∧ 0 < c.buffer_compact_threshold ∧ 0 < c.worker_n) := by
  intro ρ M c allocatedBefore r
  rw [← configChecksPass_iff]
  unfold xindexConstruct
  cases h : configChecksPass c <;> simp [h]

/-- C7: the worker id feeds only `rcu_progress`; for any root implementation
and any fixed state, `get`, `remove`, `scan` and `range_scan` return the same
result under any two worker ids, and so does `put` over the spec-modelled
root (whose `put` uses the worker id for nothing but epoch tracking). -/
theorem worker_id_independent_results :
    ∀ (ρ K V : Type) (R : RootOps ρ K V) (s : FacadeState ρ) (k bk ek : K)
      (n w1 w2 : Nat),
      ((XIndex.get R s k w1).2 = (XIndex.get R s k w2).2)
      ∧ ((XIndex.remove R s k w1).2 = (XIndex.remove R s k w2).2)
      ∧ ((XIndex.scan R s bk n w1).2 = (XIndex.scan R s bk n w2).2)
      ∧ ((XIndex.range_scan R s bk ek w1).2 = (XIndex.range_scan R s bk ek w2).2)
      ∧ (∀ (t : FacadeState GroupModel) (key v fuel w3 w4 : Nat),
          (XIndex.put groupRootOps key v w3 fuel t).map (fun p => p.2)
            = (XIndex.put groupRootOps key v w4 fuel t).map (fun p => p.2)) := by
  intro ρ K V R s k bk ek n w1 w2
  refine ⟨rfl, rfl, rfl, rfl, ?_⟩
  intro t key v fuel w3 w4
  cases fuel with
  | zero => rfl
  | succ m => rfl

/-- C8 counterexample: the constructor does not add to a prior counter value —
starting from 7 leaked bytes it resets the counter, so after allocating a
64-byte root the counter is 64, not 7 + 64. -/
theorem constructor_resets_counter_cex :
    ¬ (constructorAllocEffect 7 64 = 7 + 64) := by
  decide

/-- C8 amended: every deallocation path (destructor, background structural
update, synchronous structural update) decrements the counter by exactly
`sizeof(root_t)`, and the constructor's allocation adds exactly
`sizeof(root_t)` — but only after unconditionally resetting the counter to 0,
a documented workaround that discards whatever the counter held before. -/
theorem alloc_accounting_amended :
    (∀ (allocatedBefore sizeofRoot : Nat),
        constructorAllocEffect allocatedBefore sizeofRoot = 0 + sizeofRoot)
    ∧ (∀ (ρ : Type) (M : RootModel ρ) (r : ρ) (alloc : Nat),
        (xindexDestructor M { root := some r, allocatedBytes := alloc }).allocatedAfter
          = alloc - M.sizeofRoot)
    ∧ (∀ (ρ : Type) (M : RootModel ρ) (oldRoot : ρ) (alloc : Nat),
        (backgroundStructuralUpdate M true oldRoot alloc).2.1 = alloc - M.sizeofRoot)
    ∧ (∀ (ρ : Type) (M : RootModel ρ) (r : ρ) (alloc : Nat),
        (force_adjustment_sync M { root := some r, allocatedBytes := alloc }).1.allocatedBytes
          = if M.forceAdjEval r then alloc - M.sizeofRoot else alloc) := by
  refine ⟨fun _ _ => rfl, fun ρ M r alloc => rfl, fun ρ M oldRoot alloc => rfl, ?_⟩
  intro ρ M r alloc
  cases h : M.forceAdjEval r <;> simp [force_adjustment_sync, h]

/-- C9: with a null root, `force_adjustment_sync` returns immediately — same
state, same allocation counter, no action performed. -/
theorem force_adjustment_sync_noop_on_null :
    ∀ (ρ : Type) (M : RootModel ρ) (alloc : Nat),
      force_adjustment_sync M { root := none, allocatedBytes := alloc }
        = ({ root := none, allocatedBytes := alloc }, []) :=
  fun _ _ _ => rfl

/-- C10: when the destructor's strict assertion
`allocated_bytes > sizeof(root_t)` holds and the root is deleted, the counter
stays strictly positive, so the shutdown diagnostic necessarily reports a
nonzero number of leaked bytes. -/
theorem destructor_leak_report_positive :
    ∀ (ρ : Type) (M : RootModel ρ) (r : ρ) (alloc : Nat),
      (xindexDestructor M { root := some r, allocatedBytes := alloc }).assertHolds = true →
        0 < (xindexDestructor M { root := some r, allocatedBytes := alloc }).allocatedAfter
        ∧ (xindexDestructor M { root := some r, allocatedBytes := alloc }).leakedBytesReported
            = some (alloc - M.sizeofRoot) := by
  intro ρ M r alloc h
  have hgt : M.sizeofRoot < alloc := by
    simpa [xindexDestructor] using h
  have hpos : 0 < alloc - M.sizeofRoot := Nat.sub_pos_of_lt hgt
  refine ⟨by simpa [xindexDestructor] using hpos, ?_⟩
  simp [xindexDestructor, hpos]

/-- C10 witness: a 100-byte counter against a 64-byte root satisfies the
assertion and leaves a 36-byte leak report. -/
theorem destructor_leak_report_positive_witness :
    0 < (xindexDestructor natRootModel
          { root := some 0, allocatedBytes := 100 }).allocatedAfter
    ∧ (xindexDestructor natRootModel
          { root := some 0, allocatedBytes := 100 }).leakedBytesReported
        = some (100 - natRootModel.sizeofRoot) :=
  destructor_leak_report_positive Nat natRootModel 0 100 (by decide)

end XIndexModel
